import Mathlib

/-!
Shallow embedding of the Masumi payment-gated agent service (`main.py`):
the in-memory job store / payment-instance registry, the gatekeeper
executor `execute_crew_task`, and the three orchestration entry points
`start_job`, `handle_payment_status` and `get_status`.

Python dictionaries are modelled as association lists keyed by strings;
a missing dictionary key is `none`, and a raised exception is an
`Except.error` carrying the stringified message.  External collaborators
(the Masumi payment provider) are modelled as oracle arguments giving
the outcome of each provider call, so that both the success and the
failure paths of each handler can be analysed.
-/

namespace MasumiAgent

/-- Input payload as consumed by `execute_crew_task`: a Python dict read
with `.get`, so every field may be absent.  Only `ad_category` is ever
read; `bid_amount` and `ad_content_url` are stored but never inspected. -/
structure CrewInput where
  ad_category : Option String
  bid_amount : Option String
  ad_content_url : Option String
deriving DecidableEq, Repr

/-- Mock user preferences (`USER_PREFERENCES` in `main.py`): the fixed
category allow-list together with a minimum bid that the code declares
but never reads. -/
structure UserPreferences where
  interested_categories : List String
  min_bid : ℚ
deriving DecidableEq, Repr

def USER_PREFERENCES : UserPreferences :=
  { interested_categories := ["Technology", "Gaming", "DeFi"]
    min_bid := 1 / 2 }

/-- Gatekeeper decision function, generalised over the preference table so
that independence from `min_bid` can be stated.  Mirrors
`execute_crew_task` in `main.py`: `input_data.get("ad_category")` is falsy
in Python both when the key is absent and when it holds the empty string,
and both cases take the `ERROR` branch. -/
def execute_crew_task_prefs (prefs : UserPreferences) (input_data : CrewInput) : String :=
  match input_data.ad_category with
  | none => "ERROR: No category provided."
  | some incoming_category =>
    if incoming_category = "" then
      "ERROR: No category provided."
    else if incoming_category ∉ prefs.interested_categories then
      "REJECTED: User is not interested in " ++ incoming_category ++ "."
    else
      "ACCEPTED: Ad for " ++ incoming_category ++ " displayed. User credited."

/-- The executor exactly as the orchestrator calls it, with the module
level `USER_PREFERENCES` table baked in. -/
def execute_crew_task (input_data : CrewInput) : String :=
  execute_crew_task_prefs USER_PREFERENCES input_data

/-- One record of the `jobs` dictionary.  `result` is `None` at creation
and the `error` key is absent at creation; both are modelled as `Option`
fields starting at `none`.  `payment_status` is an `Option` because the
status-refresh write stores `status.get("data", {}).get("status")`, which
can be `None`. -/
structure JobRecord where
  status : String
  payment_status : Option String
  blockchain_identifier : String
  input_data : CrewInput
  result : Option String
  identifier_from_purchaser : String
  error : Option String
deriving DecidableEq, Repr

/-- Lookup in an association list modelling a Python dict. -/
def jobGet : List (String × JobRecord) → String → Option JobRecord
  | [], _ => none
  | (k, r) :: t, j => if k = j then some r else jobGet t j

/-- Removal of a binding, used to keep keys unique on reassignment. -/
def storeRemove : List (String × JobRecord) → String → List (String × JobRecord)
  | [], _ => []
  | (k, r) :: t, j => if k = j then storeRemove t j else (k, r) :: storeRemove t j

/-- Dict assignment `jobs[j] = rec`: replaces any existing binding. -/
def storeSet (l : List (String × JobRecord)) (j : String) (rec : JobRecord) :
    List (String × JobRecord) :=
  (j, rec) :: storeRemove l j

/-- In-place mutation of the record bound to `j` (Python mutates the dict
value object, so every alias sees the update). -/
def storeUpdate : List (String × JobRecord) → String → (JobRecord → JobRecord) →
    List (String × JobRecord)
  | [], _, _ => []
  | (k, r) :: t, j, f =>
    (if k = j then (k, f r) else (k, r)) :: storeUpdate t j f

/-- Global mutable state of `main.py`: the `jobs` table and the key set of
`payment_instances` (the payment objects themselves are opaque; their
behaviour enters through oracle arguments). -/
structure OrchState where
  jobs : List (String × JobRecord)
  payment_instances : List String
deriving DecidableEq, Repr

def initState : OrchState := ⟨[], []⟩

/-- Removal of a registry key (`del payment_instances[j]`). -/
def piRemove : List String → String → List String
  | [], _ => []
  | x :: t, j => if x = j then piRemove t j else x :: piRemove t j

/-- Registry insert `payment_instances[j] = payment` (dict keys unique). -/
def piInsert (l : List String) (j : String) : List String :=
  j :: piRemove l j

/-- Lines 220-223 / 229-231 of `main.py`: `if job_id in payment_instances:
stop_status_monitoring(); del payment_instances[job_id]`.  The membership
guard makes the snippet total (no `KeyError` possible), and
`stop_status_monitoring` has no effect on orchestrator state. -/
def stopAndRemove (st : OrchState) (job_id : String) : OrchState :=
  if job_id ∈ st.payment_instances then
    { st with payment_instances := piRemove st.payment_instances job_id }
  else st

/-- Message of the Python `KeyError` raised by a failed dict lookup. -/
def keyErr (k : String) : String := "KeyError: " ++ k

/-- Request body of `POST /start_job` (`StartJobRequest` Pydantic model).
The nested `AdOfferInput` declares all three fields as required strings. -/
structure AdOfferInput where
  ad_category : String
  bid_amount : String
  ad_content_url : String
deriving DecidableEq, Repr

structure StartJobRequest where
  identifier_from_purchaser : String
  input_data : AdOfferInput
deriving DecidableEq, Repr

/-- `data.input_data.model_dump()`: the dict handed to storage and to
`execute_crew_task`, in which every declared field is present. -/
def AdOfferInput.toCrewInput (a : AdOfferInput) : CrewInput :=
  { ad_category := some a.ad_category
    bid_amount := some a.bid_amount
    ad_content_url := some a.ad_content_url }

/-- Fields of the provider's `payment_request["data"]` that `start_job`
reads.  A provider response missing one of them makes the corresponding
lookup raise before the job is stored, which is folded into the oracle's
failure case. -/
structure PaymentRequestData where
  blockchainIdentifier : String
  submitResultTime : String
  unlockTime : String
  externalDisputeUnlockTime : String
  payByTime : String
deriving DecidableEq, Repr

/-- Response of a successful `start_job`, restricted to the dynamic fields
the claims mention (the remaining fields are environment constants or
copies of `PaymentRequestData`). -/
structure StartJobResponse where
  status : String
  job_id : String
  blockchainIdentifier : String
deriving DecidableEq, Repr

/-- Record stored by `start_job` at line 152 of `main.py`: status
`awaiting_payment`, payment status `pending`, `result = None`, no
`error` key. -/
def initRecord (bid : String) (input : CrewInput) (purchaser : String) : JobRecord :=
  { status := "awaiting_payment"
    payment_status := some "pending"
    blockchain_identifier := bid
    input_data := input
    result := none
    identifier_from_purchaser := purchaser
    error := none }

/-- The `POST /start_job` handler.  `cpr` is the outcome of
`payment.create_payment_request()` (together with the field extractions
from its response), `mon` the outcome of
`payment.start_status_monitoring(...)`, and `job_id` the fresh UUID.  The
whole body sits in a `try` whose `except` turns any exception into an
HTTP 400; mutations made before the exception persist. -/
def start_job (cpr : Except String PaymentRequestData) (mon : Except String Unit)
    (job_id : String) (st : OrchState) (data : StartJobRequest) :
    OrchState × Except String StartJobResponse :=
  match cpr with
  | .error e => (st, .error ("400: " ++ e))
  | .ok pr =>
    let st1 := { st with
      jobs := storeSet st.jobs job_id
        (initRecord pr.blockchainIdentifier data.input_data.toCrewInput
          data.identifier_from_purchaser) }
    let st2 := { st1 with payment_instances := piInsert st1.payment_instances job_id }
    match mon with
    | .error e => (st2, .error ("400: " ++ e))
    | .ok _ =>
      (st2, .ok { status := "success", job_id := job_id
                  blockchainIdentifier := pr.blockchainIdentifier })

/-- The settlement callback `handle_payment_status`, generalised over the
executor call (`execT`, the `await execute_crew_task(...)` at line 204,
which as an awaited call may raise) and over
`payment_instances[job_id].complete_payment(payment_id, result_string)`
(`cp`).  Returns the state after the call together with `ok` for a normal
return or `error` for an exception escaping the handler.  The `try` body
runs until its first exception; the `except Exception` block then writes
the `failed` status, and itself raises `KeyError` if the job is absent. -/
def handle_payment_status_gen (execT : CrewInput → Except String String)
    (cp : String → String → Except String Unit)
    (st : OrchState) (job_id payment_id : String) : OrchState × Except String Unit :=
  let tryRes : OrchState × Option String :=
    match jobGet st.jobs job_id with
    | none => (st, some (keyErr job_id))
    | some _ =>
      let st1 := { st with
        jobs := storeUpdate st.jobs job_id (fun r => { r with status := "running" }) }
      match jobGet st1.jobs job_id with
      | none => (st1, some (keyErr job_id))
      | some rec =>
        match execT rec.input_data with
        | .error e => (st1, some e)
        | .ok result =>
          if job_id ∈ st1.payment_instances then
            match cp payment_id result with
            | .error e => (st1, some e)
            | .ok _ =>
              let st2 := { st1 with
                jobs := storeUpdate st1.jobs job_id (fun r =>
                  { r with status := "completed", payment_status := some "completed"
                           result := some result }) }
              (stopAndRemove st2 job_id, none)
          else (st1, some (keyErr job_id))
  match tryRes with
  | (st', none) => (st', .ok ())
  | (st', some e) =>
    match jobGet st'.jobs job_id with
    | none => (st', .error (keyErr job_id))
    | some _ =>
      let st1 := { st' with
        jobs := storeUpdate st'.jobs job_id (fun r =>
          { r with status := "failed", error := some e }) }
      (stopAndRemove st1 job_id, .ok ())

/-- The settlement callback with the concrete gatekeeper executor, which
never raises. -/
def handle_payment_status (cp : String → String → Except String Unit)
    (st : OrchState) (job_id payment_id : String) : OrchState × Except String Unit :=
  handle_payment_status_gen (fun i => .ok (execute_crew_task i)) cp st job_id payment_id

/-- Failure classes of `payment_instances[job_id].check_payment_status()`:
`get_status` handles `ValueError` and all other exceptions differently. -/
inductive PollErr where
  | valueError (msg : String)
  | otherError (msg : String)
deriving DecidableEq, Repr

/-- The `GET /status` handler.  `poll` is the outcome of the provider
status poll, whose success value is `status.get("data", {}).get("status")`
(possibly `None`).  The JSON response is modelled as the ordered list of
key/value pairs of the returned dict; the stored `result` is a string, so
the `result_data.raw` branch is never taken and the stored value is
returned as is. -/
def get_status (poll : Except PollErr (Option String))
    (st : OrchState) (job_id : String) :
    OrchState × Except String (List (String × Option String)) :=
  match jobGet st.jobs job_id with
  | none => (st, .error "404: Job not found")
  | some rec =>
    let rec' :=
      if job_id ∈ st.payment_instances then
        match poll with
        | .ok s => { rec with payment_status := s }
        | .error (.valueError _) => { rec with payment_status := some "unknown" }
        | .error (.otherError _) => { rec with payment_status := some "error" }
      else rec
    let st1 := { st with jobs := storeSet st.jobs job_id rec' }
    (st1, .ok [("job_id", some job_id), ("status", some rec'.status),
               ("payment_status", rec'.payment_status), ("result", rec'.result)])

/-- One invocation of an orchestration entry point, together with the
oracle outcomes of the provider calls it makes. -/
inductive Op where
  | create (job_id : String) (data : StartJobRequest)
      (cpr : Except String PaymentRequestData) (mon : Except String Unit)
  | settle (job_id payment_id : String)
      (execT : CrewInput → Except String String)
      (cp : String → String → Except String Unit)
  | status (job_id : String) (poll : Except PollErr (Option String))

/-- State reached after one entry-point invocation (every handler leaves a
well-defined state behind whether it returns or raises). -/
def applyOp (st : OrchState) : Op → OrchState
  | .create job_id data cpr mon => (start_job cpr mon job_id st data).1
  | .settle job_id payment_id execT cp =>
      (handle_payment_status_gen execT cp st job_id payment_id).1
  | .status job_id poll => (get_status poll st job_id).1

/-- State reached by a sequence of entry-point invocations. -/
def runTrace (st : OrchState) : List Op → OrchState
  | [] => st
  | op :: t => runTrace (applyOp st op) t

/-- Whether an operation is a settlement-callback delivery for job `j`. -/
def isSettleFor (j : String) : Op → Bool
  | .settle j' _ _ _ => j' == j
  | _ => false

/-- Number of settlement-callback deliveries for job `j` in a trace. -/
def settleCount (j : String) (t : List Op) : ℕ :=
  (t.filter (isSettleFor j)).length

/-! ### Concrete scenario data -/

/-- Provider response used in the concrete scenarios. -/
def prConcrete : PaymentRequestData := ⟨"bchain-1", "srt", "ut", "edut", "pbt"⟩

/-- Creation request used in the concrete scenarios (the spec's
`Technology` example). -/
def reqConcrete : StartJobRequest := ⟨"marketer_123", ⟨"Technology", "0.5", "u"⟩⟩

/-- Oracle: `complete_payment` succeeds. -/
def cpOk : String → String → Except String Unit := fun _ _ => .ok ()

/-- Oracle: `complete_payment` fails (finalization failure). -/
def cpFail : String → String → Except String Unit := fun _ _ => .error "finalize boom"

/-- Oracle: the executor call returns normally with the gatekeeper's
verdict, as the concrete code does. -/
def execOk : CrewInput → Except String String := fun i => .ok (execute_crew_task i)

/-- State after creating job `j1` (payment still pending). -/
def awaitingState : OrchState :=
  runTrace initState [.create "j1" reqConcrete (.ok prConcrete) (.ok ())]

/-- The record stored for `j1` at creation time. -/
def awaitingRecord : JobRecord :=
  initRecord "bchain-1" ⟨some "Technology", some "0.5", some "u"⟩ "marketer_123"

/-- State after creating job `j1` and delivering its settlement callback
once, with execution and finalization succeeding: the job is terminal
`completed`. -/
def completedState : OrchState :=
  runTrace initState [.create "j1" reqConcrete (.ok prConcrete) (.ok ()),
                      .settle "j1" "p1" execOk cpOk]

/-- The record stored for `j1` in `completedState`. -/
def completedRecord : JobRecord :=
  { status := "completed", payment_status := some "completed"
    blockchain_identifier := "bchain-1"
    input_data := ⟨some "Technology", some "0.5", some "u"⟩
    result := some "ACCEPTED: Ad for Technology displayed. User credited."
    identifier_from_purchaser := "marketer_123", error := none }

/-- State after creating job `j1` and delivering a settlement whose
`complete_payment` call fails: the job is terminal `failed`. -/
def failedState : OrchState :=
  runTrace initState [.create "j1" reqConcrete (.ok prConcrete) (.ok ()),
                      .settle "j1" "p1" execOk cpFail]

/-- Trace that delivers the settlement callback for `j1` twice. -/
def dupTrace : List Op :=
  [.create "j1" reqConcrete (.ok prConcrete) (.ok ()),
   .settle "j1" "p1" execOk cpOk,
   .settle "j1" "p1" execOk cpOk]

/-- Whether a stored record has both `result` and `error` present. -/
def bothPresent : Option JobRecord → Bool
  | some r => r.result.isSome && r.error.isSome
  | none => false

/-- Payload of a successful HTTP response, `none` on an error response. -/
def okPayload : Except String (List (String × Option String)) →
    Option (List (String × Option String))
  | .ok l => some l
  | .error _ => none

/-- Invariant carried through a trace: every stored record has at most one
of `result`/`error` present, and a record of a job that still has a
settlement delivery ahead of it in the remaining trace has neither. -/
def TraceInv (t : List Op) (st : OrchState) : Prop :=
  ∀ j r, jobGet st.jobs j = some r →
    ¬(r.result ≠ none ∧ r.error ≠ none) ∧
    (1 ≤ settleCount j t → r.result = none ∧ r.error = none)

/-! ### Store lemmas -/

theorem jobGet_storeUpdate (j₀ : String) (f : JobRecord → JobRecord) (j : String)
    (l : List (String × JobRecord)) :
    jobGet (storeUpdate l j₀ f) j =
      if j₀ = j then (jobGet l j).map f else jobGet l j := by
  induction l with
  | nil =>
    by_cases h : j₀ = j <;> simp [storeUpdate, jobGet, h]
  | cons p t ih =>
    obtain ⟨k, r⟩ := p
    simp only [storeUpdate]
    by_cases hk₀ : k = j₀
    · simp only [if_pos hk₀]
      by_cases hkj : k = j
      · simp only [jobGet, if_pos hkj, if_pos (hk₀.symm.trans hkj)]
        rfl
      · have hj : ¬ j₀ = j := fun hq => hkj (hk₀.trans hq)
        simp only [jobGet, if_neg hkj, if_neg hj, ih]
    · simp only [if_neg hk₀]
      by_cases hkj : k = j
      · have hj : ¬ j₀ = j := fun hq => hk₀ (hkj.trans hq.symm)
        simp only [jobGet, if_pos hkj, if_neg hj]
      · simp only [jobGet, if_neg hkj, ih]

theorem jobGet_storeRemove (j₀ j : String) (h : j₀ ≠ j)
    (l : List (String × JobRecord)) :
    jobGet (storeRemove l j₀) j = jobGet l j := by
  induction l with
  | nil => rfl
  | cons p t ih =>
    obtain ⟨k, r⟩ := p
    simp only [storeRemove]
    by_cases hk₀ : k = j₀
    · have hkj : ¬ k = j := fun hq => h (hk₀.symm.trans hq)
      simp only [if_pos hk₀, jobGet, if_neg hkj, ih]
    · by_cases hkj : k = j
      · simp only [if_neg hk₀, jobGet, if_pos hkj]
      · simp only [if_neg hk₀, jobGet, if_neg hkj, ih]

theorem jobGet_storeSet (j₀ : String) (rec : JobRecord) (j : String)
    (l : List (String × JobRecord)) :
    jobGet (storeSet l j₀ rec) j = if j₀ = j then some rec else jobGet l j := by
  by_cases h : j₀ = j
  · simp only [storeSet, jobGet, if_pos h]
  · simp only [storeSet, jobGet, if_neg h]
    exact jobGet_storeRemove j₀ j h l

theorem not_mem_piRemove (j : String) (l : List String) :
    j ∉ piRemove l j := by
  induction l with
  | nil => simp [piRemove]
  | cons x t ih =>
    simp only [piRemove]
    by_cases hx : x = j
    · simpa [if_pos hx] using ih
    · simp only [if_neg hx, List.mem_cons, not_or]
      exact ⟨fun hq => hx hq.symm, ih⟩

theorem stopAndRemove_not_mem (st : OrchState) (j : String) :
    j ∉ (stopAndRemove st j).payment_instances := by
  unfold stopAndRemove
  split
  · exact not_mem_piRemove j _
  · assumption

theorem stopAndRemove_jobs (st : OrchState) (j : String) :
    (stopAndRemove st j).jobs = st.jobs := by
  unfold stopAndRemove
  split <;> rfl

theorem stopAndRemove_of_not_mem (st : OrchState) (j : String)
    (h : j ∉ st.payment_instances) : stopAndRemove st j = st := by
  unfold stopAndRemove
  rw [if_neg h]

/-! ### C7 — the gatekeeper trichotomy

The claim's `REJECTED` clause ("a REJECTED outcome when the category is
not in the allow-list") fails for a present-but-empty category: `""` is
not in the allow-list, yet the code's falsy test sends it to the `ERROR`
branch.  The trichotomy holds once the empty string is grouped with the
missing case. -/

/-- C7 counterexample: the input whose `ad_category` is present but empty
has a category outside the allow-list, yet the executor returns the
`ERROR` outcome, not the `REJECTED` outcome the claim assigns to
categories outside the allow-list. -/
theorem C7_counterexample :
    "" ∉ USER_PREFERENCES.interested_categories ∧
    execute_crew_task ⟨some "", some "0.5", some "https://ipfs.io/x"⟩ =
      "ERROR: No category provided." ∧
    execute_crew_task ⟨some "", some "0.5", some "https://ipfs.io/x"⟩ ≠
      "REJECTED: User is not interested in ." := by
  decide

/-- C7 (amended): every outcome of `execute_crew_task` is one of the three
outcome families; a missing or empty category yields the exact `ERROR`
string, a present non-empty category outside the allow-list yields the
`REJECTED` outcome, a category in the allow-list yields the `ACCEPTED`
outcome; in particular `Technology` is accepted and `Sports` rejected. -/
theorem C7_gatekeeper_trichotomy (i : CrewInput) :
    (execute_crew_task i = "ERROR: No category provided." ∨
      (∃ c, execute_crew_task i = "REJECTED: User is not interested in " ++ c ++ ".") ∨
      (∃ c, execute_crew_task i = "ACCEPTED: Ad for " ++ c ++ " displayed. User credited.")) ∧
    (i.ad_category = none ∨ i.ad_category = some "" →
      execute_crew_task i = "ERROR: No category provided.") ∧
    (∀ c, i.ad_category = some c → c ≠ "" →
      c ∉ USER_PREFERENCES.interested_categories →
      execute_crew_task i = "REJECTED: User is not interested in " ++ c ++ ".") ∧
    (∀ c, i.ad_category = some c → c ∈ USER_PREFERENCES.interested_categories →
      execute_crew_task i = "ACCEPTED: Ad for " ++ c ++ " displayed. User credited.") ∧
    (i.ad_category = some "Technology" →
      execute_crew_task i = "ACCEPTED: Ad for Technology displayed. User credited.") ∧
    (i.ad_category = some "Sports" →
      execute_crew_task i = "REJECTED: User is not interested in Sports.") := by
  refine ⟨?_, ?_, ?_, ?_, ?_, ?_⟩
  · unfold execute_crew_task execute_crew_task_prefs
    rcases hcat : i.ad_category with _ | c
    · exact Or.inl rfl
    · by_cases hempty : c = ""
      · subst hempty
        simp
      · by_cases hmem : c ∈ USER_PREFERENCES.interested_categories
        · exact Or.inr (Or.inr ⟨c, by simp [hempty, hmem]⟩)
        · exact Or.inr (Or.inl ⟨c, by simp [hempty, hmem]⟩)
  · intro h
    unfold execute_crew_task execute_crew_task_prefs
    rcases h with h | h
    · rw [h]
    · rw [h]; simp
  · intro c hc hne hmem
    unfold execute_crew_task execute_crew_task_prefs
    rw [hc]
    simp [hne, hmem]
  · intro c hc hmem
    have hne : c ≠ "" := fun h => absurd (h ▸ hmem) (by decide)
    unfold execute_crew_task execute_crew_task_prefs
    rw [hc]
    simp [hne, hmem]
  · intro hc
    unfold execute_crew_task execute_crew_task_prefs
    rw [hc]
    decide
  · intro hc
    unfold execute_crew_task execute_crew_task_prefs
    rw [hc]
    decide

/-- Witness for C7: the three scenario inputs of the claim evaluated via
the amended trichotomy. -/
theorem C7_gatekeeper_trichotomy_witness :
    execute_crew_task ⟨some "Technology", some "0.5", some "u"⟩ =
      "ACCEPTED: Ad for Technology displayed. User credited." ∧
    execute_crew_task ⟨some "Sports", some "0.5", some "u"⟩ =
      "REJECTED: User is not interested in Sports." ∧
    execute_crew_task ⟨none, some "0.5", some "u"⟩ =
      "ERROR: No category provided." :=
  ⟨(C7_gatekeeper_trichotomy ⟨some "Technology", some "0.5", some "u"⟩).2.2.2.2.1 rfl,
   (C7_gatekeeper_trichotomy ⟨some "Sports", some "0.5", some "u"⟩).2.2.2.2.2 rfl,
   (C7_gatekeeper_trichotomy ⟨none, some "0.5", some "u"⟩).2.1 (Or.inl rfl)⟩

/-! ### C9 — outcome depends on the category alone -/

/-- C9: two inputs agreeing on `ad_category` get the same outcome (the
executor never reads `bid_amount` or `ad_content_url`), and the outcome is
invariant under any change of the configured `min_bid`. -/
theorem C9_executor_depends_only_on_category :
    (∀ i₁ i₂ : CrewInput, i₁.ad_category = i₂.ad_category →
      execute_crew_task i₁ = execute_crew_task i₂) ∧
    (∀ (cats : List String) (mb mb' : ℚ) (i : CrewInput),
      execute_crew_task_prefs ⟨cats, mb⟩ i = execute_crew_task_prefs ⟨cats, mb'⟩ i) := by
  constructor
  · intro i₁ i₂ h
    unfold execute_crew_task execute_crew_task_prefs
    rw [h]
  · intro cats mb mb' i
    rfl

/-- Witness for C9: concrete inputs differing only outside `ad_category`,
and two preference tables differing only in `min_bid`. -/
theorem C9_executor_depends_only_on_category_witness :
    execute_crew_task ⟨some "Technology", some "0.1", some "a"⟩ =
      execute_crew_task ⟨some "Technology", some "99", some "b"⟩ ∧
    execute_crew_task_prefs ⟨["Technology"], 0⟩ ⟨some "Technology", none, none⟩ =
      execute_crew_task_prefs ⟨["Technology"], 7⟩ ⟨some "Technology", none, none⟩ :=
  ⟨C9_executor_depends_only_on_category.1
      ⟨some "Technology", some "0.1", some "a"⟩
      ⟨some "Technology", some "99", some "b"⟩ rfl,
   C9_executor_depends_only_on_category.2 ["Technology"] 0 7
      ⟨some "Technology", none, none⟩⟩

/-! ### C10 — present-but-empty category -/

/-- C10: an input whose `ad_category` is present but empty takes the
falsy branch of the gatekeeper and gets the missing-category `ERROR`
outcome, not the `REJECTED` outcome. -/
theorem C10_empty_category_is_error (i : CrewInput)
    (h : i.ad_category = some "") :
    execute_crew_task i = "ERROR: No category provided." ∧
    execute_crew_task i ≠ "REJECTED: User is not interested in ." := by
  unfold execute_crew_task execute_crew_task_prefs
  rw [h]
  exact ⟨rfl, by decide⟩

/-- Witness for C10 at a concrete payload. -/
theorem C10_empty_category_is_error_witness :
    execute_crew_task ⟨some "", some "0.5", some "https://ipfs.io/x"⟩ =
      "ERROR: No category provided." ∧
    execute_crew_task ⟨some "", some "0.5", some "https://ipfs.io/x"⟩ ≠
      "REJECTED: User is not interested in ." :=
  C10_empty_category_is_error ⟨some "", some "0.5", some "https://ipfs.io/x"⟩ rfl

/-! ### C3 — settlement callback on an unknown job

The claim says this is a safe no-op.  The state is indeed unchanged, but
the call is not error-free: the `try` body's `jobs[job_id]["status"] =
"running"` raises `KeyError`, and the `except` handler's own
`jobs[job_id]["status"] = "failed"` raises the same `KeyError` again,
uncaught, so the callback terminates with an exception. -/

/-- C3 counterexample: invoking the settlement callback for a job
identifier that was never created raises a `KeyError` instead of
returning normally. -/
theorem C3_counterexample :
    handle_payment_status (fun _ _ => .ok ()) initState "ghost" "p" =
      (initState, .error (keyErr "ghost")) := by
  rfl

theorem handle_payment_status_gen_missing
    (execT : CrewInput → Except String String)
    (cp : String → String → Except String Unit)
    (st : OrchState) (job_id payment_id : String)
    (h : jobGet st.jobs job_id = none) :
    handle_payment_status_gen execT cp st job_id payment_id =
      (st, .error (keyErr job_id)) := by
  unfold handle_payment_status_gen
  simp only [h]

/-- C3 (amended): the settlement callback on an unknown job identifier
leaves the job store and the payment-session registry unchanged, but it
re-raises the `KeyError` from the `except` handler rather than returning
normally. -/
theorem C3_unknown_job_raises_keyerror
    (execT : CrewInput → Except String String)
    (cp : String → String → Except String Unit)
    (st : OrchState) (job_id payment_id : String)
    (h : jobGet st.jobs job_id = none) :
    handle_payment_status_gen execT cp st job_id payment_id =
      (st, .error (keyErr job_id)) :=
  handle_payment_status_gen_missing execT cp st job_id payment_id h

/-- Witness for C3 on the empty store. -/
theorem C3_unknown_job_raises_keyerror_witness :
    handle_payment_status_gen (fun i => .ok (execute_crew_task i)) (fun _ _ => .ok ())
        initState "ghost" "p" = (initState, .error (keyErr "ghost")) :=
  C3_unknown_job_raises_keyerror (fun i => .ok (execute_crew_task i)) (fun _ _ => .ok ())
    initState "ghost" "p" rfl

/-! ### C8 — session teardown on every settlement exit -/

theorem stopAndRemove_stable (st : OrchState) (j : String) :
    j ∉ (stopAndRemove st j).payment_instances ∧
    stopAndRemove (stopAndRemove st j) j = stopAndRemove st j :=
  ⟨stopAndRemove_not_mem st j,
   stopAndRemove_of_not_mem _ j (stopAndRemove_not_mem st j)⟩

/-- C8: whenever the settlement callback runs on an existing job, both its
success exit and its failure exit end with the guarded stop-and-remove
snippet, so afterwards the registry holds no entry for the job, and
running the stop-and-remove snippet a second time is a no-op (its `in`
guard makes a `KeyError` impossible). -/
theorem C8_session_teardown
    (execT : CrewInput → Except String String)
    (cp : String → String → Except String Unit)
    (st : OrchState) (job_id payment_id : String) (r : JobRecord)
    (h : jobGet st.jobs job_id = some r) :
    job_id ∉ ((handle_payment_status_gen execT cp st job_id payment_id).1).payment_instances ∧
    stopAndRemove (handle_payment_status_gen execT cp st job_id payment_id).1 job_id =
      (handle_payment_status_gen execT cp st job_id payment_id).1 := by
  have h1 : jobGet (storeUpdate st.jobs job_id fun rr => { rr with status := "running" })
      job_id = some { r with status := "running" } := by
    rw [jobGet_storeUpdate]
    simp [h]
  unfold handle_payment_status_gen
  simp only [h, h1]
  rcases hE : execT ({ r with status := "running" } : JobRecord).input_data with e | res
  · simp only [h1]
    exact stopAndRemove_stable _ _
  · by_cases hm : job_id ∈ st.payment_instances
    · simp only [if_pos hm]
      rcases hC : cp payment_id res with e | u
      · simp only [h1]
        exact stopAndRemove_stable _ _
      · exact stopAndRemove_stable _ _
    · simp only [if_neg hm, h1]
      exact stopAndRemove_stable _ _

/-- Witness for C8: teardown after a successful settlement of a freshly
created job. -/
theorem C8_session_teardown_witness :
    "j1" ∉ ((handle_payment_status_gen (fun i => .ok (execute_crew_task i))
        (fun _ _ => .ok ())
        (start_job (.ok ⟨"bchain-1", "srt", "ut", "edut", "pbt"⟩) (.ok ()) "j1" initState
          ⟨"marketer_123", ⟨"Technology", "0.5", "u"⟩⟩).1
        "j1" "p1").1).payment_instances ∧
    stopAndRemove (handle_payment_status_gen (fun i => .ok (execute_crew_task i))
        (fun _ _ => .ok ())
        (start_job (.ok ⟨"bchain-1", "srt", "ut", "edut", "pbt"⟩) (.ok ()) "j1" initState
          ⟨"marketer_123", ⟨"Technology", "0.5", "u"⟩⟩).1
        "j1" "p1").1 "j1" =
      (handle_payment_status_gen (fun i => .ok (execute_crew_task i))
        (fun _ _ => .ok ())
        (start_job (.ok ⟨"bchain-1", "srt", "ut", "edut", "pbt"⟩) (.ok ()) "j1" initState
          ⟨"marketer_123", ⟨"Technology", "0.5", "u"⟩⟩).1
        "j1" "p1").1 :=
  C8_session_teardown (fun i => .ok (execute_crew_task i)) (fun _ _ => .ok ())
    (start_job (.ok ⟨"bchain-1", "srt", "ut", "edut", "pbt"⟩) (.ok ()) "j1" initState
      ⟨"marketer_123", ⟨"Technology", "0.5", "u"⟩⟩).1
    "j1" "p1"
    (initRecord "bchain-1" ⟨some "Technology", some "0.5", some "u"⟩ "marketer_123")
    (by rfl)

/-! ### C1 — no terminal-state guard in the settlement callback

`handle_payment_status` unconditionally sets the job to `running` and
re-runs the executor; nothing checks for a terminal state.  For a job
whose payment instance has already been torn down, the
`payment_instances[job_id]` lookup then raises, and the `except` handler
drives the job to `failed` — so a duplicate delivery moves a `completed`
job out of its terminal state. -/

/-- C1 counterexample: delivering the settlement callback a second time to
the completed job `j1` changes its record, moving it from the terminal
state `completed` to `failed`. -/
theorem C1_counterexample :
    (jobGet completedState.jobs "j1").map JobRecord.status = some "completed" ∧
    (jobGet (handle_payment_status cpOk completedState "j1" "p1").1.jobs "j1").map
        JobRecord.status = some "failed" := by
  decide

/-- C1 (amended): there is no terminal-state guard.  A repeated settlement
delivery for a job in a terminal state whose payment instance is gone
re-runs the callback body and always leaves the job in `failed`: a
`failed` job stays `failed` (though its error detail is overwritten),
while a `completed` job is moved out of its terminal state to `failed`. -/
theorem C1_no_terminal_guard
    (execT : CrewInput → Except String String)
    (cp : String → String → Except String Unit)
    (st : OrchState) (job_id payment_id : String) (r : JobRecord)
    (h : jobGet st.jobs job_id = some r)
    (_hterm : r.status = "completed" ∨ r.status = "failed")
    (hpi : job_id ∉ st.payment_instances) :
    (jobGet (handle_payment_status_gen execT cp st job_id payment_id).1.jobs job_id).map
        JobRecord.status = some "failed" := by
  have h1 : jobGet (storeUpdate st.jobs job_id fun rr => { rr with status := "running" })
      job_id = some { r with status := "running" } := by
    rw [jobGet_storeUpdate]
    simp [h]
  unfold handle_payment_status_gen
  simp only [h, h1]
  rcases hE : execT ({ r with status := "running" } : JobRecord).input_data with e | res
  · simp only [h1]
    rw [stopAndRemove_jobs, jobGet_storeUpdate]
    simp [h1]
  · simp only [if_neg hpi, h1]
    rw [stopAndRemove_jobs, jobGet_storeUpdate]
    simp [h1]

/-- Witness for C1 at the concrete completed job. -/
theorem C1_no_terminal_guard_witness :
    (jobGet (handle_payment_status_gen execOk cpOk completedState "j1" "p1").1.jobs
        "j1").map JobRecord.status = some "failed" :=
  C1_no_terminal_guard execOk cpOk completedState "j1" "p1" completedRecord
    (by decide) (Or.inl (by decide)) (by decide)

/-! ### Characterization of the settlement callback on an existing job -/

theorem storeUpdate_cons_eq (k : String) (r : JobRecord)
    (t : List (String × JobRecord)) (j : String) (f : JobRecord → JobRecord)
    (h : k = j) :
    storeUpdate ((k, r) :: t) j f = (k, f r) :: storeUpdate t j f := by
  simp [storeUpdate, if_pos h]

theorem storeUpdate_cons_ne (k : String) (r : JobRecord)
    (t : List (String × JobRecord)) (j : String) (f : JobRecord → JobRecord)
    (h : ¬ k = j) :
    storeUpdate ((k, r) :: t) j f = (k, r) :: storeUpdate t j f := by
  simp [storeUpdate, if_neg h]

theorem storeUpdate_storeUpdate (l : List (String × JobRecord)) (j : String)
    (f g : JobRecord → JobRecord) :
    storeUpdate (storeUpdate l j f) j g = storeUpdate l j (fun r => g (f r)) := by
  induction l with
  | nil => rfl
  | cons p t ih =>
    obtain ⟨k, r⟩ := p
    by_cases hk : k = j
    · rw [storeUpdate_cons_eq k r t j f hk,
          storeUpdate_cons_eq k (f r) (storeUpdate t j f) j g hk,
          storeUpdate_cons_eq k r t j (fun x => g (f x)) hk, ih]
    · rw [storeUpdate_cons_ne k r t j f hk,
          storeUpdate_cons_ne k r (storeUpdate t j f) j g hk,
          storeUpdate_cons_ne k r t j (fun x => g (f x)) hk, ih]

/-- Full description of `handle_payment_status` on an existing job: every
exit writes through `storeUpdate` at the job's key and ends in the guarded
teardown snippet; the success exit writes `completed`/`result`, every
failure exit (executor raised, `complete_payment` raised, or the payment
instance was missing) writes `failed`/`error`. -/
theorem handle_payment_status_gen_found
    (execT : CrewInput → Except String String)
    (cp : String → String → Except String Unit)
    (st : OrchState) (job_id payment_id : String) (r₀ : JobRecord)
    (h0 : jobGet st.jobs job_id = some r₀) :
    handle_payment_status_gen execT cp st job_id payment_id =
      match execT r₀.input_data with
      | .error e =>
        (stopAndRemove { st with jobs := storeUpdate st.jobs job_id (fun rr =>
            { rr with status := "failed", error := some e }) } job_id, .ok ())
      | .ok res =>
        if job_id ∈ st.payment_instances then
          match cp payment_id res with
          | .error e =>
            (stopAndRemove { st with jobs := storeUpdate st.jobs job_id (fun rr =>
                { rr with status := "failed", error := some e }) } job_id, .ok ())
          | .ok _ =>
            (stopAndRemove { st with jobs := storeUpdate st.jobs job_id (fun rr =>
                { rr with
                    status := "completed"
                    payment_status := some "completed"
                    result := some res }) } job_id, .ok ())
        else
          (stopAndRemove { st with jobs := storeUpdate st.jobs job_id (fun rr =>
              { rr with status := "failed", error := some (keyErr job_id) }) } job_id,
           .ok ()) := by
  have h1 : jobGet (storeUpdate st.jobs job_id fun rr => { rr with status := "running" })
      job_id = some { r₀ with status := "running" } := by
    rw [jobGet_storeUpdate]
    simp [h0]
  unfold handle_payment_status_gen
  simp only [h0, h1]
  rcases hE : execT r₀.input_data with e | res
  · simp only [h1, storeUpdate_storeUpdate]
  · by_cases hm : job_id ∈ st.payment_instances
    · simp only [if_pos hm]
      rcases hC : cp payment_id res with e | u
      · simp only [h1, storeUpdate_storeUpdate]
      · simp only [storeUpdate_storeUpdate]
    · simp only [if_neg hm, h1, storeUpdate_storeUpdate]

/-! ### Per-operation effect on stored records -/

/-- A settlement callback either leaves a record's `result`/`error` fields
untouched, or performs the success write (sets `result`, keeps `error`),
or performs the failure write (sets `error`, keeps `result`), the writes
happening only at the delivered job's own key. -/
theorem settle_effect
    (execT : CrewInput → Except String String)
    (cp : String → String → Except String Unit)
    (st : OrchState) (job_id payment_id : String) (j : String) (r' : JobRecord)
    (h : jobGet (handle_payment_status_gen execT cp st job_id payment_id).1.jobs j =
      some r') :
    ∃ r, jobGet st.jobs j = some r ∧
      ((r'.result = r.result ∧ r'.error = r.error) ∨
       (j = job_id ∧ r'.error = r.error ∧ ∃ s, r'.result = some s) ∨
       (j = job_id ∧ r'.result = r.result ∧ ∃ e, r'.error = some e)) := by
  rcases h0 : jobGet st.jobs job_id with _ | r₀
  · rw [handle_payment_status_gen_missing execT cp st job_id payment_id h0] at h
    exact ⟨r', h, Or.inl ⟨rfl, rfl⟩⟩
  · rw [handle_payment_status_gen_found execT cp st job_id payment_id r₀ h0] at h
    rcases hE : execT r₀.input_data with e | res
    · rw [hE] at h
      simp only [stopAndRemove_jobs] at h
      rw [jobGet_storeUpdate] at h
      by_cases hj : job_id = j
      · rw [if_pos hj] at h
        subst hj
        rw [h0] at h
        simp only [Option.map_some'] at h
        injection h with h
        exact ⟨r₀, h0, Or.inr (Or.inr ⟨rfl, by rw [← h], ⟨e, by rw [← h]⟩⟩)⟩
      · rw [if_neg hj] at h
        exact ⟨r', h, Or.inl ⟨rfl, rfl⟩⟩
    · by_cases hm : job_id ∈ st.payment_instances
      · rw [hE] at h
        simp only [if_pos hm] at h
        rcases hC : cp payment_id res with e | u
        · rw [hC] at h
          simp only [stopAndRemove_jobs] at h
          rw [jobGet_storeUpdate] at h
          by_cases hj : job_id = j
          · rw [if_pos hj] at h
            subst hj
            rw [h0] at h
            simp only [Option.map_some'] at h
            injection h with h
            exact ⟨r₀, h0, Or.inr (Or.inr ⟨rfl, by rw [← h], ⟨e, by rw [← h]⟩⟩)⟩
          · rw [if_neg hj] at h
            exact ⟨r', h, Or.inl ⟨rfl, rfl⟩⟩
        · rw [hC] at h
          simp only [stopAndRemove_jobs] at h
          rw [jobGet_storeUpdate] at h
          by_cases hj : job_id = j
          · rw [if_pos hj] at h
            subst hj
            rw [h0] at h
            simp only [Option.map_some'] at h
            injection h with h
            exact ⟨r₀, h0, Or.inr (Or.inl ⟨rfl, by rw [← h], ⟨res, by rw [← h]⟩⟩)⟩
          · rw [if_neg hj] at h
            exact ⟨r', h, Or.inl ⟨rfl, rfl⟩⟩
      · rw [hE] at h
        simp only [if_neg hm] at h
        simp only [stopAndRemove_jobs] at h
        rw [jobGet_storeUpdate] at h
        by_cases hj : job_id = j
        · rw [if_pos hj] at h
          subst hj
          rw [h0] at h
          simp only [Option.map_some'] at h
          injection h with h
          exact ⟨r₀, h0, Or.inr (Or.inr ⟨rfl, by rw [← h], ⟨keyErr job_id, by rw [← h]⟩⟩)⟩
        · rw [if_neg hj] at h
          exact ⟨r', h, Or.inl ⟨rfl, rfl⟩⟩

/-- State left by a `start_job` whose provider call succeeded (whether or
not monitoring start then failed): the record is stored and the payment
instance registered. -/
theorem start_job_ok_state (pr : PaymentRequestData) (mon : Except String Unit)
    (job_id : String) (st : OrchState) (data : StartJobRequest) :
    (start_job (.ok pr) mon job_id st data).1 =
      { jobs := storeSet st.jobs job_id (initRecord pr.blockchainIdentifier
          data.input_data.toCrewInput data.identifier_from_purchaser)
        payment_instances := piInsert st.payment_instances job_id } := by
  cases mon <;> rfl

/-- A creation either leaves a record as it was or installs the fresh
record, whose `result` and `error` are both absent. -/
theorem create_effect (cpr : Except String PaymentRequestData)
    (mon : Except String Unit) (job_id : String) (st : OrchState)
    (data : StartJobRequest) (j : String) (r' : JobRecord)
    (h : jobGet (start_job cpr mon job_id st data).1.jobs j = some r') :
    jobGet st.jobs j = some r' ∨ (r'.result = none ∧ r'.error = none) := by
  rcases cpr with e | pr
  · exact Or.inl h
  · rw [start_job_ok_state] at h
    simp only at h
    rw [jobGet_storeSet] at h
    by_cases hj : job_id = j
    · rw [if_pos hj] at h
      injection h with h
      right
      rw [← h]
      exact ⟨rfl, rfl⟩
    · rw [if_neg hj] at h
      exact Or.inl h

/-- A status query never changes any record's `result` or `error`. -/
theorem status_effect (poll : Except PollErr (Option String))
    (st : OrchState) (job_id : String) (j : String) (r' : JobRecord)
    (h : jobGet (get_status poll st job_id).1.jobs j = some r') :
    ∃ r, jobGet st.jobs j = some r ∧ r'.result = r.result ∧ r'.error = r.error := by
  rcases h0 : jobGet st.jobs job_id with _ | rec
  · unfold get_status at h
    simp only [h0] at h
    exact ⟨r', h, rfl, rfl⟩
  · unfold get_status at h
    simp only [h0] at h
    rw [jobGet_storeSet] at h
    by_cases hj : job_id = j
    · rw [if_pos hj] at h
      injection h with h
      refine ⟨rec, hj ▸ h0, ?_⟩
      rw [← h]
      by_cases hm : job_id ∈ st.payment_instances
      · rw [if_pos hm]
        rcases poll with pe | s
        · rcases pe with m | m
          · exact ⟨rfl, rfl⟩
          · exact ⟨rfl, rfl⟩
        · exact ⟨rfl, rfl⟩
      · rw [if_neg hm]
        exact ⟨rfl, rfl⟩
    · rw [if_neg hj] at h
      exact ⟨r', h, rfl, rfl⟩

/-! ### The single-delivery invariant (C2) -/

theorem settleCount_cons (j : String) (op : Op) (t : List Op) :
    settleCount j (op :: t) = (if isSettleFor j op then 1 else 0) + settleCount j t := by
  unfold settleCount
  rw [List.filter_cons]
  cases h : isSettleFor j op <;> simp [h, Nat.add_comm]

/-- Core induction: under at-most-once settlement delivery per job, no
reachable record ever holds both a `result` and an `error`. -/
theorem runTrace_atMostOne (t : List Op) (st : OrchState)
    (hcount : ∀ j, settleCount j t ≤ 1) (hinv : TraceInv t st) :
    ∀ j r, jobGet (runTrace st t).jobs j = some r →
      ¬(r.result ≠ none ∧ r.error ≠ none) := by
  induction t generalizing st with
  | nil => exact fun j r h => (hinv j r h).1
  | cons op t ih =>
    have hcount' : ∀ j, settleCount j t ≤ 1 := by
      intro j
      have hc := hcount j
      rw [settleCount_cons] at hc
      omega
    apply ih (applyOp st op) hcount'
    intro j r h
    cases op with
    | create job_id data cpr mon =>
      rcases create_effect cpr mon job_id st data j r h with hold | hclean
      · have hi := hinv j r hold
        refine ⟨hi.1, fun hs => hi.2 ?_⟩
        rw [settleCount_cons]
        simpa [isSettleFor] using hs
      · exact ⟨fun hc => hc.1 hclean.1, fun _ => hclean⟩
    | settle job_id payment_id execT cp =>
      rcases settle_effect execT cp st job_id payment_id j r h with ⟨r₀, hr₀, hcase⟩
      have hi := hinv j r₀ hr₀
      rcases hcase with ⟨hres, herr⟩ | ⟨hj, herr, s, hres⟩ | ⟨hj, hres, e, herr⟩
      · refine ⟨?_, fun hs => ?_⟩
        · rw [hres, herr]
          exact hi.1
        · have hcl := hi.2 (by rw [settleCount_cons]; omega)
          rw [hres, herr]
          exact hcl
      · subst hj
        have hcl : r₀.result = none ∧ r₀.error = none := by
          apply hi.2
          rw [settleCount_cons]
          simp only [isSettleFor, beq_self_eq_true, if_true]
          omega
        refine ⟨fun hc => hc.2 (herr.trans hcl.2), fun hs => ?_⟩
        exfalso
        have hc := hcount j
        rw [settleCount_cons] at hc
        simp only [isSettleFor, beq_self_eq_true, if_true] at hc
        omega
      · subst hj
        have hcl : r₀.result = none ∧ r₀.error = none := by
          apply hi.2
          rw [settleCount_cons]
          simp only [isSettleFor, beq_self_eq_true, if_true]
          omega
        refine ⟨fun hc => hc.1 (hres.trans hcl.1), fun hs => ?_⟩
        exfalso
        have hc := hcount j
        rw [settleCount_cons] at hc
        simp only [isSettleFor, beq_self_eq_true, if_true] at hc
        omega
    | status job_id poll =>
      rcases status_effect poll st job_id j r h with ⟨r₀, hr₀, hres, herr⟩
      have hi := hinv j r₀ hr₀
      refine ⟨?_, fun hs => ?_⟩
      · rw [hres, herr]
        exact hi.1
      · have hcl := hi.2 (by rw [settleCount_cons]; omega)
        rw [hres, herr]
        exact hcl

/-! ### C2 — at most one of `result`/`error`

The failure write of the settlement callback sets `error` without
clearing `result`, so a duplicate settlement delivery to an already
completed job (whose payment instance is gone, making `complete_payment`
raise `KeyError`) yields a record with both fields present.  The claimed
invariant holds exactly on the traces with at most one settlement
delivery per job — the delivery discipline the provider contract
promises. -/

/-- C2 counterexample: create `j1`, settle it successfully, then deliver
the settlement callback once more; the stored record then has both
`result` and `error` present. -/
theorem C2_counterexample :
    bothPresent (jobGet (runTrace initState dupTrace).jobs "j1") = true := by
  decide

/-- C2 (amended): in every state reached by a sequence of
createJob / onSettled / getStatus operations that delivers the settlement
callback at most once per job, no stored record has both `result` and
`error` present; duplicate delivery can violate this. -/
theorem C2_single_delivery_invariant (t : List Op)
    (hcount : ∀ j, settleCount j t ≤ 1) (j : String) (r : JobRecord)
    (h : jobGet (runTrace initState t).jobs j = some r) :
    ¬(r.result ≠ none ∧ r.error ≠ none) :=
  runTrace_atMostOne t initState hcount
    (fun _ _ hmem => Option.noConfusion hmem) j r h

/-- Witness for C2 on the single-delivery trace create-then-settle. -/
theorem C2_single_delivery_invariant_witness :
    ¬(completedRecord.result ≠ none ∧ completedRecord.error ≠ none) :=
  C2_single_delivery_invariant
    [.create "j1" reqConcrete (.ok prConcrete) (.ok ()),
     .settle "j1" "p1" execOk cpOk]
    (by
      intro j
      rw [settleCount_cons, settleCount_cons]
      simp only [isSettleFor, settleCount, List.filter_nil, List.length_nil]
      by_cases hq : ("j1" : String) = j <;> simp [beq_iff_eq, hq])
    "j1" completedRecord (by decide)

/-! ### C4 — creation is not all-or-nothing

The job record is stored (line 152) before `start_status_monitoring` is
awaited (line 167); a failure in the latter is converted into an HTTP 400
creation error, but the stored record (and the registered payment
instance) survive. -/

/-- C4 counterexample: the provider call succeeds but
`start_status_monitoring` then fails; `start_job` reports a creation
error, yet the `awaiting_payment` record is left in the job store. -/
theorem C4_counterexample :
    (start_job (.ok prConcrete) (.error "monitor boom") "j1" initState reqConcrete).2 =
      .error "400: monitor boom" ∧
    jobGet (start_job (.ok prConcrete) (.error "monitor boom") "j1" initState
        reqConcrete).1.jobs "j1" = some awaitingRecord :=
  ⟨rfl, by decide⟩

/-- C4 (amended): if the provider's `create_payment_request` call fails,
`start_job` fails with a creation error and the state is untouched; if
the provider call succeeds, the job record is stored in
`awaiting_payment` carrying the provider-issued payment identifier — and
it remains stored even when the subsequent `start_status_monitoring`
fails and the request as a whole reports a creation error. -/
theorem C4_creation_paths (cpr : Except String PaymentRequestData)
    (mon : Except String Unit) (job_id : String) (st : OrchState)
    (data : StartJobRequest) :
    (∀ e, cpr = .error e →
      start_job cpr mon job_id st data = (st, .error ("400: " ++ e))) ∧
    (∀ pr, cpr = .ok pr →
      jobGet (start_job cpr mon job_id st data).1.jobs job_id =
        some (initRecord pr.blockchainIdentifier data.input_data.toCrewInput
          data.identifier_from_purchaser) ∧
      (initRecord pr.blockchainIdentifier data.input_data.toCrewInput
          data.identifier_from_purchaser).status = "awaiting_payment") ∧
    (∀ pr, cpr = .ok pr → mon = .ok () →
      (start_job cpr mon job_id st data).2 =
        .ok { status := "success"
              job_id := job_id
              blockchainIdentifier := pr.blockchainIdentifier }) ∧
    (∀ pr e, cpr = .ok pr → mon = .error e →
      (start_job cpr mon job_id st data).2 = .error ("400: " ++ e)) := by
  refine ⟨?_, ?_, ?_, ?_⟩
  · rintro e rfl
    rfl
  · rintro pr rfl
    refine ⟨?_, rfl⟩
    simp [start_job_ok_state, jobGet_storeSet]
  · rintro pr rfl rfl
    rfl
  · rintro pr e rfl rfl
    rfl

/-- Witness for C4: the provider-failure path on the empty store and the
monitoring-failure path both produce the stated outcomes. -/
theorem C4_creation_paths_witness :
    start_job (.error "provider down") (.ok ()) "j1" initState reqConcrete =
      (initState, .error "400: provider down") ∧
    (start_job (.ok prConcrete) (.error "monitor boom") "j1" initState
        reqConcrete).2 = .error "400: monitor boom" :=
  ⟨(C4_creation_paths (.error "provider down") (.ok ()) "j1" initState
      reqConcrete).1 "provider down" rfl,
   (C4_creation_paths (.ok prConcrete) (.error "monitor boom") "j1" initState
      reqConcrete).2.2.2 prConcrete "monitor boom" rfl rfl⟩

/-! ### C5 — poll failure during a status query

`get_status` swallows the poll error, but it does not keep the cached
`payment_status`: the `except ValueError` arm writes `"unknown"` and the
generic `except` arm writes `"error"` over the cached value. -/

/-- C5 counterexample: the cached payment status of `j1` is `pending`;
a failing poll makes the snapshot report the sentinel `unknown` instead
of the cached value. -/
theorem C5_counterexample :
    (jobGet awaitingState.jobs "j1").map JobRecord.payment_status =
      some (some "pending") ∧
    (get_status (.error (.valueError "connection refused")) awaitingState "j1").2 =
      .ok [("job_id", some "j1"), ("status", some "awaiting_payment"),
           ("payment_status", some "unknown"), ("result", none)] ∧
    ("unknown" : String) ≠ "pending" :=
  ⟨by decide, rfl, by decide⟩

/-- C5 (amended): when the provider poll during `get_status` fails, the
error is not propagated — the query still returns a snapshot — but the
cached `payment_status` is not kept: it is overwritten with the sentinel
`unknown` (on `ValueError`) or `error` (on any other exception), and the
snapshot reports that sentinel. -/
theorem C5_poll_failure_sentinel (st : OrchState) (job_id : String)
    (rec : JobRecord) (pe : PollErr)
    (h : jobGet st.jobs job_id = some rec)
    (hm : job_id ∈ st.payment_instances) :
    (∀ msg, pe = .valueError msg →
      get_status (.error pe) st job_id =
        ({ st with jobs := storeSet st.jobs job_id ({ rec with payment_status := some "unknown" }) },
         .ok [("job_id", some job_id), ("status", some rec.status),
              ("payment_status", some "unknown"), ("result", rec.result)])) ∧
    (∀ msg, pe = .otherError msg →
      get_status (.error pe) st job_id =
        ({ st with jobs := storeSet st.jobs job_id ({ rec with payment_status := some "error" }) },
         .ok [("job_id", some job_id), ("status", some rec.status),
              ("payment_status", some "error"), ("result", rec.result)])) := by
  constructor
  · rintro msg rfl
    unfold get_status
    simp only [h, if_pos hm]
  · rintro msg rfl
    unfold get_status
    simp only [h, if_pos hm]

/-- Witness for C5 on the freshly created job. -/
theorem C5_poll_failure_sentinel_witness :
    get_status (.error (.valueError "connection refused")) awaitingState "j1" =
      ({ awaitingState with jobs := storeSet awaitingState.jobs "j1" ({ awaitingRecord with
          payment_status := some "unknown" }) },
       .ok [("job_id", some "j1"), ("status", some awaitingRecord.status),
            ("payment_status", some "unknown"), ("result", awaitingRecord.result)]) :=
  (C5_poll_failure_sentinel awaitingState "j1" awaitingRecord
      (.valueError "connection refused") (by decide) (by decide)).1
    "connection refused" rfl

/-! ### C6 — terminal reporting through `get_status`

On the success path the claim holds.  On the failure path the error
detail is stored on the job record, but the `/status` response dict has
no `error` key at all, so the stored detail never reaches the caller. -/

/-- Response of a status query issued right after a settlement callback
wrote the record through `storeUpdate`: the session is gone, so the poll
is skipped and the snapshot shows the written record. -/
theorem get_status_after_write (st : OrchState) (job_id : String)
    (f : JobRecord → JobRecord) (r : JobRecord)
    (poll : Except PollErr (Option String))
    (h : jobGet st.jobs job_id = some r) :
    (get_status poll
        (stopAndRemove { st with jobs := storeUpdate st.jobs job_id f } job_id)
        job_id).2 =
      .ok [("job_id", some job_id), ("status", some (f r).status),
           ("payment_status", (f r).payment_status), ("result", (f r).result)] := by
  have hj : jobGet (stopAndRemove { st with jobs := storeUpdate st.jobs job_id f }
      job_id).jobs job_id = some (f r) := by
    simp only [stopAndRemove_jobs]
    rw [jobGet_storeUpdate, if_pos rfl, h, Option.map_some']
  unfold get_status
  simp only [hj, if_neg (stopAndRemove_not_mem _ job_id)]

/-- C6 counterexample: after a finalization failure the record stores the
error detail, but the status response carries no `error` field at all. -/
theorem C6_counterexample :
    (jobGet failedState.jobs "j1").map JobRecord.error =
      some (some "finalize boom") ∧
    ((okPayload (get_status (.ok (some "x")) failedState "j1").2).map
        (fun l => l.lookup "error")) = some none := by
  decide

/-- C6 (amended): after a successful settlement and execution,
`get_status` reports `completed` with the non-absent result; after an
execution or finalization failure it reports `failed` with an absent
result, and the error detail — though recorded (non-absent) on the job
record — does not appear anywhere in the response. -/
theorem C6_status_reporting
    (st : OrchState) (job_id payment_id : String)
    (cp : String → String → Except String Unit)
    (execT : CrewInput → Except String String)
    (poll : Except PollErr (Option String)) (r : JobRecord)
    (h : jobGet st.jobs job_id = some r)
    (hm : job_id ∈ st.payment_instances)
    (hres : r.result = none) :
    (∀ s, execT r.input_data = .ok s → cp payment_id s = .ok () →
      (get_status poll (handle_payment_status_gen execT cp st job_id payment_id).1
          job_id).2 =
        .ok [("job_id", some job_id), ("status", some "completed"),
             ("payment_status", some "completed"), ("result", some s)]) ∧
    (∀ e, execT r.input_data = .error e →
      (jobGet (handle_payment_status_gen execT cp st job_id payment_id).1.jobs
          job_id).map JobRecord.error = some (some e) ∧
      (get_status poll (handle_payment_status_gen execT cp st job_id payment_id).1
          job_id).2 =
        .ok [("job_id", some job_id), ("status", some "failed"),
             ("payment_status", r.payment_status), ("result", none)]) ∧
    (∀ s e, execT r.input_data = .ok s → cp payment_id s = .error e →
      (jobGet (handle_payment_status_gen execT cp st job_id payment_id).1.jobs
          job_id).map JobRecord.error = some (some e) ∧
      (get_status poll (handle_payment_status_gen execT cp st job_id payment_id).1
          job_id).2 =
        .ok [("job_id", some job_id), ("status", some "failed"),
             ("payment_status", r.payment_status), ("result", none)]) := by
  refine ⟨?_, ?_, ?_⟩
  · intro s hE hC
    rw [handle_payment_status_gen_found execT cp st job_id payment_id r h]
    simp only [hE, if_pos hm, hC]
    rw [get_status_after_write st job_id _ r poll h]
  · intro e hE
    rw [handle_payment_status_gen_found execT cp st job_id payment_id r h]
    simp only [hE]
    constructor
    · simp only [stopAndRemove_jobs]
      rw [jobGet_storeUpdate, if_pos rfl, h, Option.map_some', Option.map_some']
    · rw [get_status_after_write st job_id _ r poll h]
      simp [hres]
  · intro s e hE hC
    rw [handle_payment_status_gen_found execT cp st job_id payment_id r h]
    simp only [hE, if_pos hm, hC]
    constructor
    · simp only [stopAndRemove_jobs]
      rw [jobGet_storeUpdate, if_pos rfl, h, Option.map_some', Option.map_some']
    · rw [get_status_after_write st job_id _ r poll h]
      simp [hres]

/-- Witness for C6: the success path on the freshly created `Technology`
job. -/
theorem C6_status_reporting_witness :
    (get_status (.ok (some "x"))
        (handle_payment_status_gen execOk cpOk awaitingState "j1" "p1").1 "j1").2 =
      .ok [("job_id", some "j1"), ("status", some "completed"),
           ("payment_status", some "completed"),
           ("result", some "ACCEPTED: Ad for Technology displayed. User credited.")] :=
  (C6_status_reporting awaitingState "j1" "p1" cpOk execOk (.ok (some "x"))
      awaitingRecord (by decide) (by decide) (by decide)).1
    "ACCEPTED: Ad for Technology displayed. User credited." rfl rfl

end MasumiAgent
